import Mathlib

/-!
Shallow embedding of the message relay and session pipeline of the
websocket-lambda-deepseek repository, together with proofs checking the
natural-language specification against it.

The embedding follows the refactored (authoritative) variants of the source
files: `src/services/message.service.ts` (the `handleChatMessage` /
`processWithLLM` / `handleLLMError` decomposition), the sanitization and
conversation utilities (`sanitizeUserInput`, `sanitizeLLMParameters`,
`formatConversationHistory`, ...), `src/services/chat-session.service.ts`
(the variant of `createChatSession` that checks for an existing session),
`src/services/llm.service.ts` (`getLLMClient` retry loop, `streamResponse`)
and `src/utils/websocket.ts` (`sendMessageToClient`).

Conventions of the embedding:
* JavaScript strings are Lean `String`s; `Date.now()` is passed in as an
  explicit `now : Nat` argument (all calls within one turn share it).
* The DynamoDB table is a pure association list keyed by connection id;
  each store operation is a pure state transformer.
* `async`/`await` control flow is sequentialized; a thrown JS error is an
  `Except.error` carrying a `JsError` (name and message).
* The gRPC backend is abstracted by a `StreamSpec` describing the chunks it
  would stream (or the error it reports), and the delivery transport by a
  function `sends : Nat -> SendResult` giving the outcome of the n-th
  `PostToConnection` attempt of the turn.
* JavaScript `RegExp.test` is embedded with a small Brzozowski-derivative
  matcher; the `/i` flag is modelled by lower-casing the input and writing
  the patterns in lower case (the patterns are ASCII).
-/

/-! ## String helpers mirroring the JavaScript primitives used by the code -/

/-- Whitespace as JavaScript `\s` / `String.prototype.trim` treat it,
restricted to the ASCII range (the source inputs of interest are ASCII). -/
def jsSpace (c : Char) : Bool :=
  c = ' ' || c = '\t' || c = '\n' || c = '\r' || c = '\u000B' || c = '\u000C'

/-- JavaScript `String.prototype.trim` on the character list. -/
def jsTrimList (cs : List Char) : List Char :=
  ((cs.dropWhile jsSpace).reverse.dropWhile jsSpace).reverse

/-- JavaScript `String.prototype.trim`. -/
def jsTrim (s : String) : String :=
  String.mk (jsTrimList s.data)

/-- JavaScript `String.prototype.toLowerCase` (ASCII case folding). -/
def jsToLower (s : String) : String :=
  String.mk (s.data.map Char.toLower)

/-- Check whether the needle occurs as a contiguous sublist of the haystack,
the semantics of JavaScript `String.prototype.includes`. -/
def containsSubList : List Char → List Char → Bool
  | [], needle => needle.isEmpty
  | h :: t, needle => needle.isPrefixOf (h :: t) || containsSubList t needle

/-- JavaScript `String.prototype.includes`. -/
def containsSub (s sub : String) : Bool :=
  containsSubList s.data sub.data

/-- Characters removed by the sanitizers' control-character replace:
the regex class covering u0000-u0008, u000B-u000C, u000E-u001F and u007F
(tab, newline and carriage return are deliberately kept by the code). -/
def isStrippedControl (c : Char) : Bool :=
  (c.toNat ≤ 8) || (11 ≤ c.toNat && c.toNat ≤ 12) ||
  (14 ≤ c.toNat && c.toNat ≤ 31) || (c.toNat = 127)

/-- Result of `.replace(/[\u0000-\u0008\u000B-\u000C\u000E-\u001F\u007F]/g, "")`. -/
def stripControl (s : String) : String :=
  String.mk (s.data.filter (fun c => !(isStrippedControl c)))

/-- JavaScript `Array.prototype.join` with a separator. -/
def joinSep (sep : String) : List String → String
  | [] => ""
  | [x] => x
  | x :: y :: rest => x ++ sep ++ joinSep sep (y :: rest)

/-- JavaScript `Array.prototype.slice(-n)`: the `n` last elements
(the whole list when it is shorter than `n`). -/
def takeRight (n : Nat) (xs : List α) : List α :=
  xs.drop (xs.length - n)

/-! ## A small regular-expression matcher

The sanitizer tests the input against fixed JavaScript regular expressions.
They are embedded as a datatype of regular expressions over character
classes with a Brzozowski-derivative matcher; `rxSearch` reproduces the
unanchored substring semantics of `RegExp.prototype.test`. -/

/-- Regular expressions over decidable character classes. -/
inductive Rx where
  | emp : Rx
  | eps : Rx
  | cls (p : Char → Bool) : Rx
  | seq (a b : Rx) : Rx
  | alt (a b : Rx) : Rx
  | star (a : Rx) : Rx

/-- Smart sequencing collapsing the empty language and the empty string. -/
def rseq : Rx → Rx → Rx
  | Rx.emp, _ => Rx.emp
  | _, Rx.emp => Rx.emp
  | Rx.eps, b => b
  | a, Rx.eps => a
  | a, b => Rx.seq a b

/-- Smart alternation collapsing the empty language. -/
def ralt : Rx → Rx → Rx
  | Rx.emp, b => b
  | a, Rx.emp => a
  | a, b => Rx.alt a b

/-- Nullability: whether the expression accepts the empty string. -/
def nullable : Rx → Bool
  | Rx.emp => false
  | Rx.eps => true
  | Rx.cls _ => false
  | Rx.seq a b => nullable a && nullable b
  | Rx.alt a b => nullable a || nullable b
  | Rx.star _ => true

/-- Brzozowski derivative with respect to one character. -/
def derivC : Rx → Char → Rx
  | Rx.emp, _ => Rx.emp
  | Rx.eps, _ => Rx.emp
  | Rx.cls p, c => if p c then Rx.eps else Rx.emp
  | Rx.seq a b, c =>
      if nullable a then ralt (rseq (derivC a c) b) (derivC b c)
      else rseq (derivC a c) b
  | Rx.alt a b, c => ralt (derivC a c) (derivC b c)
  | Rx.star a, c => rseq (derivC a c) (Rx.star a)

/-- Anchored matching of a whole character list. -/
def rxMatchList (r : Rx) : List Char → Bool
  | [] => nullable r
  | c :: cs => rxMatchList (derivC r c) cs

/-- Character class matching any character (`.` never appears unescaped in
the embedded patterns, so this is only used for the search wrappers). -/
def anyChar : Rx := Rx.cls (fun _ => true)

/-- Unanchored search, the semantics of `RegExp.prototype.test` for a
pattern without `^`/`$` anchors. -/
def rxSearch (r : Rx) (s : String) : Bool :=
  rxMatchList (Rx.seq (Rx.star anyChar) (Rx.seq r (Rx.star anyChar))) s.data

/-- Anchored-at-start search, the semantics of `RegExp.prototype.test` for
a pattern beginning with `^` (no multiline flag in the source patterns). -/
def rxSearchAnchored (r : Rx) (s : String) : Bool :=
  rxMatchList (Rx.seq r (Rx.star anyChar)) s.data

/-- Literal-string regular expression. -/
def rxLit (s : String) : Rx :=
  s.data.foldr (fun c r => Rx.seq (Rx.cls (fun d => d = c)) r) Rx.eps

/-- Regex `\s` (as in the source patterns). -/
def rxWs : Rx := Rx.cls jsSpace

/-- Regex `\s*`. -/
def rxWsStar : Rx := Rx.star rxWs

/-- Regex `\s+`. -/
def rxWsPlus : Rx := Rx.seq rxWs (Rx.star rxWs)

/-- Regex `[^\/]+`. -/
def rxNonSlashPlus : Rx :=
  Rx.seq (Rx.cls (fun c => c ≠ '/')) (Rx.star (Rx.cls (fun c => c ≠ '/')))

/-- Regex `[0-9a-f]` (the `/i` fold maps `A-F` into `a-f`). -/
def rxHexDigit : Rx :=
  Rx.cls (fun c => (48 ≤ c.toNat && c.toNat ≤ 57) || (97 ≤ c.toNat && c.toNat ≤ 102))

/-- Regex `\\x[0-9a-f]{2}`: a literal backslash, an `x`, two hex digits. -/
def rxHexEscape : Rx :=
  Rx.seq (rxLit "\\x") (Rx.seq rxHexDigit rxHexDigit)

/-! ## Sanitizer (utils/sanitization.ts) -/

/-- Maximum allowed message length in characters (source constant). -/
def MAX_MESSAGE_LENGTH : Nat := 100000

/-- Embedding of the `directSystemExploitPatterns` list of
`sanitizeUserInput`, in source order.  Each entry records whether the
pattern is anchored at the start of the string (`^`) and its body.  All
patterns carry the `/i` flag, which the caller models by lower-casing the
tested string; the pattern bodies are therefore written in lower case. -/
def directSystemExploitPatterns : List (Bool × Rx) :=
  [ (false, rxLit "/etc/passwd"),
    (false, rxLit "/var/log"),
    (false, rxLit "/root/"),
    (false, Rx.seq (rxLit "/home/") (Rx.seq rxNonSlashPlus (rxLit "/.ssh"))),
    (false, rxLit "/proc/self"),
    (true,  Rx.seq rxWsStar (Rx.seq
              (Rx.alt (rxLit "sudo") (Rx.alt (rxLit "apt-get") (Rx.alt (rxLit "yum")
                (Rx.seq (rxLit "rm") (Rx.seq rxWsPlus (rxLit "-rf"))))))
              rxWsPlus)),
    (false, Rx.seq (rxLit "\n") (Rx.seq rxWsStar (Rx.seq
              (Rx.alt (rxLit "sudo") (Rx.alt (rxLit "apt-get") (Rx.alt (rxLit "yum")
                (Rx.alt (Rx.seq (rxLit "chmod") (Rx.seq rxWsPlus (rxLit "777")))
                        (Rx.seq (rxLit "rm") (Rx.seq rxWsPlus (rxLit "-rf")))))))
              rxWsPlus))),
    (false, Rx.seq (rxLit "process.exec") (Rx.seq rxWsStar (rxLit "("))),
    (false, rxLit "child_process.exec"),
    (false, Rx.seq (rxLit "os.system") (Rx.seq rxWsStar (rxLit "("))),
    (false, Rx.seq (rxLit "subprocess.call") (Rx.seq rxWsStar (rxLit "("))),
    (false, Rx.seq (rxLit "runtime.getruntime().exec") (Rx.seq rxWsStar (rxLit "("))),
    (false, Rx.seq (rxLit "||") (Rx.seq rxWsStar
              (Rx.seq (rxLit "curl") (Rx.seq rxWsPlus (rxLit "http"))))),
    (false, Rx.seq (rxLit "&&") (Rx.seq rxWsStar
              (Rx.seq (rxLit "wget") (Rx.seq rxWsPlus (rxLit "http"))))),
    (false, Rx.seq (rxLit "||") (Rx.seq rxWsStar
              (Rx.seq (rxLit "nc") (Rx.seq rxWsPlus
                (Rx.seq (rxLit "-e") (Rx.seq rxWsPlus (rxLit "/bin/bash"))))))),
    (false, Rx.seq rxHexEscape (Rx.seq rxHexEscape rxHexEscape)) ]

/-- Embedding of the `promptInjectionPatterns` list of `sanitizeUserInput`,
in source order (all unanchored, `/i`). -/
def promptInjectionPatterns : List (Bool × Rx) :=
  [ (false, rxLit "ignore previous instructions"),
    (false, rxLit "ignore all previous commands"),
    (false, rxLit "disregard prior instructions"),
    (false, rxLit "override system prompt"),
    (false, Rx.seq (rxLit "system:") (Rx.seq rxWsStar (Rx.star (Rx.cls (fun c => c ≠ '\n'))))) ]

/-- Run one `/i`-flagged pattern test the way `pattern.test(trimmedInput)`
does: fold the input to lower case and search (anchored when the pattern
starts with `^`). -/
def testPatternCI (p : Bool × Rx) (s : String) : Bool :=
  if p.1 then rxSearchAnchored p.2 (jsToLower s) else rxSearch p.2 (jsToLower s)

/-- Whether any entry of `directSystemExploitPatterns` matches. -/
def matchesDangerousPattern (s : String) : Bool :=
  directSystemExploitPatterns.any (fun p => testPatternCI p s)

/-- Whether any entry of `promptInjectionPatterns` matches. -/
def matchesPromptInjection (s : String) : Bool :=
  promptInjectionPatterns.any (fun p => testPatternCI p s)

/-- Result record returned by the sanitizer (interface SanitizationResult). -/
structure SanitizationResult where
  sanitized : String
  valid : Bool
  errorMessage : Option String
deriving DecidableEq, Repr

/-- Embedding of `sanitizeUserInput` from utils/sanitization.ts.  The
undefined/null and `typeof` guards of the source cannot fire for a typed
`String` argument and are therefore not represented. -/
def sanitizeUserInput (input : String) : SanitizationResult :=
  let trimmedInput := jsTrim input
  if trimmedInput.length = 0 then
    { sanitized := "", valid := false, errorMessage := some "Input cannot be empty" }
  else if MAX_MESSAGE_LENGTH < trimmedInput.length then
    { sanitized := String.mk (trimmedInput.data.take MAX_MESSAGE_LENGTH),
      valid := false,
      errorMessage := some "Input exceeds maximum allowed length of 100000 characters" }
  else if matchesDangerousPattern trimmedInput then
    { sanitized := trimmedInput, valid := false,
      errorMessage := some "Input contains potentially dangerous system access patterns" }
  else if matchesPromptInjection trimmedInput then
    { sanitized := trimmedInput, valid := false,
      errorMessage := some "Input contains patterns that attempt to override system instructions" }
  else
    { sanitized := stripControl trimmedInput, valid := true, errorMessage := none }

/-- Embedding of `safelySanitizeInput`: for a typed `String` argument,
`String(input || "")` is the identity and `sanitizeUserInput` cannot throw,
so the `try`/`catch` wrapper reduces to a plain call. -/
def safelySanitizeInput (input : String) : SanitizationResult :=
  sanitizeUserInput input

/-- Embedding of `lightlySanitizeInput`: the falsy/`typeof` guard returns
`""` for the empty string, which coincides with stripping control
characters from it; the function never throws. -/
def lightlySanitizeInput (input : String) : String :=
  if input = "" then "" else stripControl input

/-! ## Generation parameters (utils/sanitization.ts) -/

/-- Outcome of a JavaScript `typeof x === "number"` test on a dynamic
field: a numeric value (modelled as a rational) or anything else
(including an absent field). -/
inductive RNum where
  | num (x : ℚ) : RNum
  | other : RNum
deriving DecidableEq, Repr

/-- Elements of a dynamic `stop` array: strings or anything else. -/
inductive StopVal where
  | str (s : String) : StopVal
  | nonStr : StopVal
deriving DecidableEq, Repr

/-- Dynamic `stop` field: an array or anything else (including absent). -/
inductive RStop where
  | arr (xs : List StopVal) : RStop
  | notArr : RStop
deriving DecidableEq, Repr

/-- Raw `parameters` object as received from the client. -/
structure RawParams where
  max_tokens : RNum
  temperature : RNum
  top_p : RNum
  top_k : RNum
  repetition_penalty : RNum
  stop : RStop
deriving DecidableEq, Repr

/-- Raw parameters object with every field absent (the `|| {}` default). -/
def emptyRawParams : RawParams :=
  { max_tokens := RNum.other, temperature := RNum.other, top_p := RNum.other,
    top_k := RNum.other, repetition_penalty := RNum.other, stop := RStop.notArr }

/-- Sanitized parameter set produced by the sanitizer. -/
structure LLMParams where
  max_tokens : ℚ
  temperature : ℚ
  top_p : ℚ
  top_k : ℚ
  repetition_penalty : ℚ
  stop : List String
deriving DecidableEq, Repr

/-- Source constant DEFAULT_PARAMS. -/
def DEFAULT_PARAMS : LLMParams :=
  { max_tokens := 1024, temperature := 7/10, top_p := 1, top_k := 40,
    repetition_penalty := 1, stop := [] }

/-- Source constant MAX_PARAMS (it has no `stop` member). -/
structure MaxParams where
  max_tokens : ℚ
  temperature : ℚ
  top_p : ℚ
  top_k : ℚ
  repetition_penalty : ℚ

/-- Source constant MAX_PARAMS. -/
def MAX_PARAMS : MaxParams :=
  { max_tokens := 4096, temperature := 2, top_p := 1, top_k := 100,
    repetition_penalty := 2 }

/-- Embedding of `sanitizeLLMParameters` from utils/sanitization.ts:
start from the defaults and accept each field only under the source's
typeof/range condition, capping with `Math.min` where the source does.
The source's sequential `if` blocks each assign one distinct field of the
`sanitizedParams` object, so the record is assembled fieldwise. -/
def sanitizeLLMParameters (params : RawParams) : LLMParams :=
  { max_tokens :=
      match params.max_tokens with
      | RNum.num x => if 0 < x then min x MAX_PARAMS.max_tokens else DEFAULT_PARAMS.max_tokens
      | RNum.other => DEFAULT_PARAMS.max_tokens,
    temperature :=
      match params.temperature with
      | RNum.num x => if 0 ≤ x then min x MAX_PARAMS.temperature else DEFAULT_PARAMS.temperature
      | RNum.other => DEFAULT_PARAMS.temperature,
    top_p :=
      match params.top_p with
      | RNum.num x => if 0 < x ∧ x ≤ MAX_PARAMS.top_p then x else DEFAULT_PARAMS.top_p
      | RNum.other => DEFAULT_PARAMS.top_p,
    top_k :=
      match params.top_k with
      | RNum.num x => if 0 < x then min x MAX_PARAMS.top_k else DEFAULT_PARAMS.top_k
      | RNum.other => DEFAULT_PARAMS.top_k,
    repetition_penalty :=
      match params.repetition_penalty with
      | RNum.num x =>
          if 0 < x then min x MAX_PARAMS.repetition_penalty
          else DEFAULT_PARAMS.repetition_penalty
      | RNum.other => DEFAULT_PARAMS.repetition_penalty,
    stop :=
      match params.stop with
      | RStop.arr xs =>
          (xs.filterMap (fun v =>
            match v with
            | StopVal.str s => some s
            | StopVal.nonStr => none)).take 5
      | RStop.notArr => DEFAULT_PARAMS.stop }

/-- Embedding of `safelySanitizeParameters`: `sanitizeLLMParameters` is
total in the model, so the `try`/`catch` wrapper reduces to a plain call. -/
def safelySanitizeParameters (params : RawParams) : LLMParams :=
  sanitizeLLMParameters params

/-! ## Chat data model and DynamoDB-backed session store
(services/chat-session.service.ts) -/

/-- Message roles. -/
inductive Role where
  | user : Role
  | assistant : Role
deriving DecidableEq, Repr

/-- Interface ChatMessage. -/
structure ChatMessage where
  role : Role
  content : String
  timestamp : Nat
deriving DecidableEq, Repr

/-- Interface ChatSession. -/
structure ChatSession where
  connectionId : String
  userId : String
  conversationHistory : List ChatMessage
  createdAt : Nat
  updatedAt : Nat
  ttl : Nat
deriving DecidableEq, Repr

/-- Source constant config.chatSessionTtl (seconds). -/
def chatSessionTtl : Nat := 1209600

/-- The DynamoDB chat-sessions table, keyed by connection id. -/
abbrev Store := List (String × ChatSession)

/-- Write (put or overwrite) the item at a key. -/
def storePut : Store → String → ChatSession → Store
  | [], cid, v => [(cid, v)]
  | (k, w) :: rest, cid, v =>
      if k = cid then (cid, v) :: rest else (k, w) :: storePut rest cid v

/-- Embedding of `getChatSession`: a DynamoDB `GetCommand` by key. -/
def getChatSession (store : Store) (connectionId : String) : Option ChatSession :=
  (store.find? (fun p => p.1 = connectionId)).map Prod.snd

/-- Embedding of `createChatSession` (the authoritative variant, which
first checks whether a session already exists and returns it unchanged
instead of overwriting).  `Date.now()` is the `now` argument; the item ttl
is `Math.floor(now / 1000) + config.chatSessionTtl`. -/
def createChatSession (store : Store) (connectionId userId : String) (now : Nat) :
    ChatSession × Store :=
  match getChatSession store connectionId with
  | some existingSession => (existingSession, store)
  | none =>
      let session : ChatSession :=
        { connectionId := connectionId, userId := userId, conversationHistory := [],
          createdAt := now, updatedAt := now, ttl := now / 1000 + chatSessionTtl }
      (session, storePut store connectionId session)

/-- Embedding of `addMessageToChatSession`: read the session, give up with
`none` when it is absent, otherwise append the message and update
`updatedAt` with an `UpdateCommand`. -/
def addMessageToChatSession (store : Store) (connectionId : String)
    (message : ChatMessage) (now : Nat) : Option ChatSession × Store :=
  match getChatSession store connectionId with
  | none => (none, store)
  | some session =>
      let updatedSession :=
        { session with conversationHistory := session.conversationHistory ++ [message],
                       updatedAt := now }
      (some updatedSession, storePut store connectionId updatedSession)

/-- Embedding of `clearChatSessionHistory` (authoritative variant with the
existence check): replace the history with the empty list. -/
def clearChatSessionHistory (store : Store) (connectionId : String) (now : Nat) : Store :=
  match getChatSession store connectionId with
  | none => store
  | some session =>
      storePut store connectionId
        { session with conversationHistory := [], updatedAt := now }

/-! ## Conversation formatting (utils/conversation.ts) -/

/-- Source constant MAX_HISTORY_MESSAGES of `formatConversationHistory`. -/
def MAX_HISTORY_MESSAGES : Nat := 50

/-- Embedding of `formatConversationHistory` from utils/conversation.ts:
drop the most recent message (`history.slice(0, -1)`), cap to the last
`MAX_HISTORY_MESSAGES` (`slice(-50)`), render each message as
`Human:`/`Assistant:` plus the lightly sanitized content, and join with
blank lines. -/
def formatConversationHistory (history : List ChatMessage) : String :=
  if history.isEmpty then ""
  else
    let historyWithoutLatest := history.dropLast
    if historyWithoutLatest.isEmpty then ""
    else
      let limitedHistory := takeRight MAX_HISTORY_MESSAGES historyWithoutLatest
      joinSep "\n\n" (limitedHistory.map (fun msg =>
        (if msg.role = Role.user then "Human: " else "Assistant: ") ++
          lightlySanitizeInput msg.content))

/-- Prompt construction of `processWithLLM` (message.service.ts): the
formatted history, when non-empty, followed by the new turn's framing. -/
def fullPromptFor (history : List ChatMessage) (sanitizedMessage : String) : String :=
  let conversationHistoryText := formatConversationHistory history
  if conversationHistoryText = "" then
    ("Human: " ++ sanitizedMessage) ++ "\n\nAssistant:"
  else
    ((conversationHistoryText ++ "\n\nHuman: ") ++ sanitizedMessage) ++ "\n\nAssistant:"

/-! ## Error classification (handleLLMError in message.service.ts) -/

/-- A JavaScript `Error` value: constructor name and message.  (The
`error instanceof Error` guard of the source holds for every error the
model can produce.) -/
structure JsError where
  name : String
  message : String
deriving DecidableEq, Repr

/-- The connection-failure substring checks of `handleLLMError`. -/
def isConnectionFailureMessage (m : String) : Bool :=
  containsSub m "Failed to connect" || containsSub m "connection failed" ||
  containsSub m "Connection refused" || containsSub m "ECONNREFUSED" ||
  containsSub m "socket hang up" || containsSub m "network timeout"

/-- The resource-constraint substring checks of `handleLLMError`. -/
def isResourceConstraintMessage (m : String) : Bool :=
  containsSub m "out of memory" || containsSub m "resource exhausted" ||
  containsSub m "timeout" || containsSub m "too many requests"

/-- User-facing text of the general error category. -/
def generalErrorText : String :=
  "There was an error processing your request. Please try again."

/-- User-facing text of the connection-failure category. -/
def connectionFailureText : String :=
  "LLM service connection failed. Please check that the LLM service is running and try again."

/-- User-facing text of the resource-constraint category. -/
def resourceConstraintText : String :=
  "The LLM service is currently experiencing high load or resource constraints. Please try again with a shorter message or wait a few minutes."

/-- Error message and category chosen by `handleLLMError`: the defaults,
overwritten by the connection-failure check, overwritten in turn by the
resource-constraint check (two sequential `if`s in the source). -/
def llmErrorResponse (e : JsError) : String × String :=
  let afterConnCheck :=
    if isConnectionFailureMessage e.message then
      (connectionFailureText, "ec2_connection_failure")
    else (generalErrorText, "general_error")
  if isResourceConstraintMessage e.message then
    (resourceConstraintText, "ec2_resource_constraint")
  else afterConnCheck

/-! ## Generation client (services/llm.service.ts) -/

/-- Source constant MAX_CONNECTION_ATTEMPTS. -/
def MAX_CONNECTION_ATTEMPTS : Nat := 3

/-- Source constant RETRY_DELAY_MS. -/
def RETRY_DELAY_MS : Nat := 1000

/-- Source constant CONNECTION_TIMEOUT_SECONDS. -/
def CONNECTION_TIMEOUT_SECONDS : Nat := 10

/-- Source constant RESPONSE_TIMEOUT_SECONDS. -/
def RESPONSE_TIMEOUT_SECONDS : Nat := 600

/-- Error thrown by `getLLMClient` once the attempt ceiling is exhausted
(the template instantiates MAX_CONNECTION_ATTEMPTS to 3). -/
def connectFailureError : JsError :=
  { name := "Error", message := "Failed to connect to LLM service after 3 attempts" }

/-- One chunk of the streamed generation (interface LLMResponse). -/
structure LLMResponse where
  text : String
  isComplete : Bool
deriving DecidableEq, Repr

/-- A generation request (interface LLMRequest), with the parameters
already in sanitized form as `processWithLLM` builds them. -/
structure LLMRequest where
  prompt : String
  parameters : LLMParams
deriving DecidableEq, Repr

/-- Embedding of the `getLLMClient` retry loop.  `attemptResult k` tells
whether the k-th connection attempt (1-based, the value of the source's
incremented `connectionAttempts` counter) reaches a ready channel.  The
source recurses while `connectionAttempts < MAX_CONNECTION_ATTEMPTS`,
sleeping RETRY_DELAY_MS between attempts; the recursion is driven here by
`remaining = MAX_CONNECTION_ATTEMPTS - attempts`, so the source's retry
condition `n < MAX_CONNECTION_ATTEMPTS` is `remaining ≠ 0`.  The result
also reports how many attempts were made and the list of inter-attempt
delays (in ms).  (On success the source caches the client and resets the
counter; caching is outside the model.) -/
def getLLMClientGo (attemptResult : Nat → Bool) :
    Nat → Nat → Except JsError Unit × Nat × List Nat
  | _, 0 => (Except.error connectFailureError, 0, [])
  | attempts, remaining + 1 =>
      let n := attempts + 1
      if attemptResult n then (Except.ok (), 1, [])
      else if remaining = 0 then (Except.error connectFailureError, 1, [])
      else
        let (r, made, delays) := getLLMClientGo attemptResult n remaining
        (r, made + 1, RETRY_DELAY_MS :: delays)

/-- Embedding of `getLLMClient` starting from a fresh counter. -/
def getLLMClient (attemptResult : Nat → Bool) : Except JsError Unit × Nat × List Nat :=
  getLLMClientGo attemptResult 0 MAX_CONNECTION_ATTEMPTS

/-! ## Delivery channel (utils/websocket.ts) and turn state -/

/-- Transport outcome of one `PostToConnection` attempt: success, a
`GoneException` (HTTP 410, the remote endpoint no longer exists), or any
other transport fault. -/
inductive SendResult where
  | success : SendResult
  | goneErr : SendResult
  | otherErr : SendResult
deriving DecidableEq, Repr

/-- The error rethrown by `sendMessageToClient` when the endpoint is gone. -/
def goneException : JsError := { name := "GoneException", message := "410" }

/-- The error rethrown by `sendMessageToClient` on any other fault. -/
def sendFailureError : JsError := { name := "Error", message := "send failed" }

/-- Payloads pushed through the delivery channel by the message service
(the `sendMessageToClient` call sites), stripped to their distinguishing
fields; every payload also carries a `timestamp` in the source. -/
inductive Outbound where
  | processingAck : Outbound
  | chunkMsg (text : String) (isComplete : Bool) : Outbound
  | clearedMsg : Outbound
  | invalidInputMsg (text : String) : Outbound
  | errorMsg (text : String) (category : String) : Outbound
  | newConversationMsg : Outbound
  | defaultMsg : Outbound
deriving DecidableEq, Repr

/-- The `WebSocketResponse` value returned by the message service (for the
primary action it is returned to the Lambda handler rather than pushed
through the channel). -/
inductive WsResponse where
  | complete (fullText : String) (sender : String) : WsResponse
  | cleared : WsResponse
  | invalidInput (text : String) : WsResponse
  | errorResp (text : String) (category : String) : WsResponse
  | invalidStructure (text : String) : WsResponse
  | newConversation : WsResponse
  | unknownAction : WsResponse
deriving DecidableEq, Repr

/-- Observable state threaded through one turn: the session store, the
trace of delivery attempts (payload and transport outcome, in order), the
number of endpoint-gone events logged by `sendMessageToClient`, and the
generation requests issued to the backend. -/
structure TurnState where
  store : Store
  attempts : List (Outbound × SendResult)
  goneLogs : Nat
  requests : List LLMRequest
deriving DecidableEq, Repr

/-- Embedding of `sendMessageToClient` from utils/websocket.ts: attempt
the post, and on failure log (a `GoneException`/410 gets the extra
"connection is gone" log; the source only logs there, it deletes nothing)
and rethrow the error unconditionally. -/
def sendMessageToClient (sends : Nat → SendResult) (st : TurnState)
    (payload : Outbound) : TurnState × Except JsError Unit :=
  let r := sends st.attempts.length
  let st1 := { st with attempts := st.attempts ++ [(payload, r)] }
  match r with
  | SendResult.success => (st1, Except.ok ())
  | SendResult.goneErr =>
      ({ st1 with goneLogs := st1.goneLogs + 1 }, Except.error goneException)
  | SendResult.otherErr => (st1, Except.error sendFailureError)

/-- Behaviour of the generation backend for one streaming call, as far as
the orchestrator can observe it: the chunks it streams before a clean end,
a stream error, or a failure of `getLLMClient` itself. -/
inductive StreamSpec where
  | chunks (cs : List LLMResponse) : StreamSpec
  | streamErr (e : JsError) : StreamSpec
  | connectFail : StreamSpec
deriving Repr

/-- Connect `getLLMClient` to the stream behaviour: when the client cannot
be initialized the streaming call rejects with that error, otherwise the
backend streams the given chunks. -/
def streamSpecOfBackend (attemptResult : Nat → Bool) (cs : List LLMResponse) : StreamSpec :=
  match (getLLMClient attemptResult).1 with
  | Except.error _ => StreamSpec.connectFail
  | Except.ok _ => StreamSpec.chunks cs

/-- The per-chunk loop of `processWithLLM`'s `streamResponse` callback.
The callback runs inside `stream.on("data", async ...)`, whose promise is
never awaited by `streamResponse`: `fullResponse += chunk.text` runs
synchronously at the start of each handler, the chunk delivery is then
attempted, and an exception thrown by the delivery (for example a
`GoneException`) becomes an unhandled promise rejection - it is logged by
`sendMessageToClient` but can neither reject the stream nor stop the
remaining data events.  Every chunk is therefore processed and its
delivery attempted exactly once, the send outcome is discarded, and the
loop always completes with the full accumulated text. -/
def streamChunks (sends : Nat → SendResult) :
    List LLMResponse → String → TurnState → TurnState × String
  | [], acc, st => (st, acc)
  | c :: rest, acc, st =>
      let acc1 := acc ++ c.text
      let st1 := (sendMessageToClient sends st (Outbound.chunkMsg c.text c.isComplete)).1
      streamChunks sends rest acc1 st1

/-- Embedding of `streamResponse` (services/llm.service.ts) as observed by
`processWithLLM`: the promise it returns resolves with the accumulated
full response on the stream's "end" event and rejects only on the
stream's "error" event or when the client cannot be obtained; a throw
inside the per-chunk data handler never rejects it (see `streamChunks`). -/
def streamResponse (sends : Nat → SendResult) (spec : StreamSpec)
    (st : TurnState) : TurnState × Except JsError String :=
  match spec with
  | StreamSpec.connectFail => (st, Except.error connectFailureError)
  | StreamSpec.streamErr e => (st, Except.error e)
  | StreamSpec.chunks cs =>
      match streamChunks sends cs "" st with
      | (st1, fullResponse) => (st1, Except.ok fullResponse)

/-! ## Relay orchestrator (services/message.service.ts, handlers/message.ts) -/

/-- Embedding of `getOrCreateChatSession`. -/
def getOrCreateChatSession (store : Store) (connectionId userId : String)
    (now : Nat) : ChatSession × Store :=
  match getChatSession store connectionId with
  | some chatSession => (chatSession, store)
  | none => createChatSession store connectionId userId now

/-- Embedding of `handleClearCommand`: clear the history, then deliver the
confirmation message and return the cleared response. -/
def handleClearCommand (sends : Nat → SendResult) (connectionId : String)
    (now : Nat) (st : TurnState) : TurnState × Except JsError WsResponse :=
  let st1 := { st with store := clearChatSessionHistory st.store connectionId now }
  match sendMessageToClient sends st1 Outbound.clearedMsg with
  | (st2, Except.ok _) => (st2, Except.ok WsResponse.cleared)
  | (st2, Except.error e) => (st2, Except.error e)

/-- Embedding of `processWithLLM`: append the sanitized user turn, build
the prompt from the pre-turn history snapshot (`chatSession` was read
before the append, so its `conversationHistory` does not contain the new
user message), sanitize the parameters, issue the streaming request, and
on success append the concatenated assistant output and return the
completion response (which the source returns to the caller rather than
posting through the channel). -/
def processWithLLM (sends : Nat → SendResult) (spec : StreamSpec)
    (sanitizedMessage : String) (llmParameters : RawParams)
    (connectionId sender : String) (chatSession : ChatSession) (now : Nat)
    (st : TurnState) : TurnState × Except JsError WsResponse :=
  let userChatMessage : ChatMessage :=
    { role := Role.user, content := sanitizedMessage, timestamp := now }
  let st1 := { st with
    store := (addMessageToChatSession st.store connectionId userChatMessage now).2 }
  let fullPrompt := fullPromptFor chatSession.conversationHistory sanitizedMessage
  let sanitizedParameters := safelySanitizeParameters llmParameters
  let llmRequest : LLMRequest := { prompt := fullPrompt, parameters := sanitizedParameters }
  let st2 := { st1 with requests := st1.requests ++ [llmRequest] }
  match streamResponse sends spec st2 with
  | (st3, Except.error e) => (st3, Except.error e)
  | (st3, Except.ok fullResponse) =>
      let assistantChatMessage : ChatMessage :=
        { role := Role.assistant, content := fullResponse, timestamp := now }
      let st4 := { st3 with
        store := (addMessageToChatSession st3.store connectionId assistantChatMessage now).2 }
      (st4, Except.ok (WsResponse.complete fullResponse sender))

/-- Embedding of `handleLLMError`: classify the error, deliver a single
error message tagged with its category, and return the error response.
The delivery itself can fail, in which case that failure propagates to the
caller (the source has no `try` around this send). -/
def handleLLMError (sends : Nat → SendResult) (e : JsError)
    (st : TurnState) : TurnState × Except JsError WsResponse :=
  let (errorMessage, errorCategory) := llmErrorResponse e
  match sendMessageToClient sends st (Outbound.errorMsg errorMessage errorCategory) with
  | (st1, Except.ok _) => (st1, Except.ok (WsResponse.errorResp errorMessage errorCategory))
  | (st1, Except.error e2) => (st1, Except.error e2)

/-- Embedding of `handleChatMessage`: send the processing acknowledgment
(outside the `try`, so its failure propagates), then inside the `try`
resolve the session, intercept the `/clear` directive before sanitization,
sanitize, reject invalid input without touching the session, and otherwise
process with the LLM; any error thrown inside the `try` is routed to
`handleLLMError`. -/
def handleChatMessage (sends : Nat → SendResult) (spec : StreamSpec)
    (userMessage : String) (llmParameters : RawParams)
    (connectionId userId sender : String) (now : Nat) (st : TurnState) :
    TurnState × Except JsError WsResponse :=
  match sendMessageToClient sends st Outbound.processingAck with
  | (st1, Except.error e) => (st1, Except.error e)
  | (st1, Except.ok _) =>
      let inner : TurnState × Except JsError WsResponse :=
        let (chatSession, store1) := getOrCreateChatSession st1.store connectionId userId now
        let st2 := { st1 with store := store1 }
        if jsToLower (jsTrim userMessage) = "/clear" then
          handleClearCommand sends connectionId now st2
        else
          let sanitizeResult := safelySanitizeInput userMessage
          if sanitizeResult.valid = false then
            let errText := sanitizeResult.errorMessage.getD
              "Your input could not be processed. Please try again."
            match sendMessageToClient sends st2 (Outbound.invalidInputMsg errText) with
            | (st3, Except.ok _) => (st3, Except.ok (WsResponse.invalidInput errText))
            | (st3, Except.error e) => (st3, Except.error e)
          else
            processWithLLM sends spec sanitizeResult.sanitized llmParameters
              connectionId sender chatSession now st2
      match inner with
      | (st9, Except.ok r) => (st9, Except.ok r)
      | (st9, Except.error e) => handleLLMError sends e st9

/-- Inbound data payload (`data` member of the wire message); the `sender`
member only feeds the resolved `sender` argument and is omitted. -/
structure WsData where
  message : Option String
  parameters : Option RawParams
deriving Repr

/-- Inbound wire message. -/
structure WsMessage where
  action : String
  data : Option WsData
deriving Repr

/-- Embedding of `validateMessageStructure`: the `typeof action` and
`typeof parameters` guards always pass in the typed model, leaving the
presence checks on `data` and `data.message` for the primary action. -/
def validateMessageStructure (m : WsMessage) : Bool × Option String :=
  if m.action = "message" then
    match m.data with
    | none => (false, some "Invalid message format: missing data")
    | some d =>
        match d.message with
        | none => (false, some "Invalid message format: missing message content")
        | some _ => (true, none)
  else (true, none)

/-- Embedding of `handleMessage`: validate the structure (returning the
invalid-structure response without touching anything on failure), then
dispatch on the action; `connectionId`, `userId` and `sender` arrive
already resolved (connection lookup and defaulting are value plumbing).
The initial turn state starts from the given store with an empty trace. -/
def handleMessage (sends : Nat → SendResult) (spec : StreamSpec)
    (m : WsMessage) (connectionId userId sender : String) (now : Nat)
    (store : Store) : TurnState × Except JsError WsResponse :=
  let st0 : TurnState := { store := store, attempts := [], goneLogs := 0, requests := [] }
  match validateMessageStructure m with
  | (false, errText) =>
      (st0, Except.ok (WsResponse.invalidStructure (errText.getD "")))
  | (true, _) =>
      if m.action = "message" then
        let userMessage := ((m.data.bind WsData.message).getD "")
        let llmParameters := ((m.data.bind WsData.parameters).getD emptyRawParams)
        handleChatMessage sends spec userMessage llmParameters
          connectionId userId sender now st0
      else if m.action = "new_conversation" then
        let st1 := { st0 with store := clearChatSessionHistory st0.store connectionId now }
        match sendMessageToClient sends st1 Outbound.newConversationMsg with
        | (st2, Except.ok _) => (st2, Except.ok WsResponse.newConversation)
        | (st2, Except.error e) => (st2, Except.error e)
      else
        match sendMessageToClient sends st0 Outbound.defaultMsg with
        | (st2, Except.ok _) => (st2, Except.ok WsResponse.unknownAction)
        | (st2, Except.error e) => (st2, Except.error e)

/-- Embedding of the Lambda handler (handlers/message.ts): a successful
`handleMessage` becomes a 200 response carrying its value; any error it
rethrows is caught and becomes a 500 "Internal Server Error" response. -/
def handler (sends : Nat → SendResult) (spec : StreamSpec) (m : WsMessage)
    (connectionId userId sender : String) (now : Nat) (store : Store) :
    Nat × Option WsResponse × TurnState :=
  match handleMessage sends spec m connectionId userId sender now store with
  | (st, Except.ok r) => (200, some r, st)
  | (st, Except.error _) => (500, none, st)

/-! ## Spec-side rendering (for refinement comparison)

The specification describes the assembled prompt as rendering each
retained history message as the role label followed by the message content
verbatim.  The definition below follows those words (same retention window
as the code, content untouched) so that it can be compared with the code's
`fullPromptFor`. -/

/-- Prompt as the specification words describe it: each retained message
rendered as the `Human`/`Assistant` label and its content verbatim, joined
by blank lines, with the new turn's framing appended. -/
def specRenderedPrompt (history : List ChatMessage) (newUserText : String) : String :=
  let retained := takeRight MAX_HISTORY_MESSAGES history.dropLast
  let rendered := joinSep "\n\n" (retained.map (fun msg =>
    (if msg.role = Role.user then "Human: " else "Assistant: ") ++ msg.content))
  if rendered = "" then
    ("Human: " ++ newUserText) ++ "\n\nAssistant:"
  else
    ((rendered ++ "\n\nHuman: ") ++ newUserText) ++ "\n\nAssistant:"

/-- Copy of a history message with its content lightly sanitized, the
form in which `formatConversationHistory` actually renders it. -/
def lightlySanitizedMsg (m : ChatMessage) : ChatMessage :=
  { m with content := lightlySanitizeInput m.content }

/-! ## Concrete fixtures used by witnesses and counterexamples -/

/-- Transport that always delivers. -/
def allOkSends : Nat → SendResult := fun _ => SendResult.success

/-- Transport whose endpoint disappears after the first delivery (the
acknowledgment succeeds, everything later returns `GoneException`). -/
def goneAfterAckSends : Nat → SendResult :=
  fun n => if n = 0 then SendResult.success else SendResult.goneErr

/-- Transport whose endpoint is gone for every delivery attempt. -/
def allGoneSends : Nat → SendResult := fun _ => SendResult.goneErr

/-- Backend connection attempts that all fail. -/
def allFailConnects : Nat → Bool := fun _ => false

/-- A small pre-existing session. -/
def demoSess : ChatSession :=
  { connectionId := "c1", userId := "u1",
    conversationHistory :=
      [{ role := Role.user, content := "hello", timestamp := 1 },
       { role := Role.assistant, content := "hi there", timestamp := 2 }],
    createdAt := 0, updatedAt := 2, ttl := 100 }

/-- A store holding `demoSess` under key "c1". -/
def demoStore : Store := [("c1", demoSess)]

/-- The spec's concrete stream: chunks Hel, lo, ! with the final one
marked complete. -/
def demoChunks : List LLMResponse :=
  [{ text := "Hel", isComplete := false },
   { text := "lo", isComplete := false },
   { text := "!", isComplete := true }]

/-- A 60-message prior history with distinguishable contents c0 .. c59. -/
def hist60 : List ChatMessage :=
  (List.range 60).map (fun i =>
    { role := Role.user, content := "c" ++ toString i, timestamp := i })

/-- A session holding the 60-message history. -/
def sess60 : ChatSession :=
  { connectionId := "c1", userId := "u1", conversationHistory := hist60,
    createdAt := 0, updatedAt := 59, ttl := 100 }

/-- A store holding `sess60` under key "c1". -/
def store60 : Store := [("c1", sess60)]

/-- A history whose first message contains a control character (NUL). -/
def ctrlHistory : List ChatMessage :=
  [{ role := Role.user, content := "a\u0000b", timestamp := 0 },
   { role := Role.user, content := "x", timestamp := 1 }]

/-- Raw parameters with temperature 999 and a mixed stop array. -/
def raw999 : RawParams :=
  { emptyRawParams with
      temperature := RNum.num 999,
      stop := RStop.arr [StopVal.str "a", StopVal.nonStr, StopVal.str "b"] }

set_option maxRecDepth 100000

/-! ## Helper lemmas -/

/-- Reading back the key just written returns the written session. -/
theorem getChatSession_storePut_same (store : Store) (cid : String) (v : ChatSession) :
    getChatSession (storePut store cid v) cid = some v := by
  induction store with
  | nil => simp [storePut, getChatSession]
  | cons p rest ih =>
      by_cases h : p.1 = cid
      · simp [storePut, getChatSession, h]
      · simp only [storePut]
        rw [if_neg h]
        simpa [getChatSession, List.find?, h] using ih

/-- Writing one key leaves every other key unchanged. -/
theorem getChatSession_storePut_other (store : Store) (cid cid2 : String)
    (v : ChatSession) (h : cid2 ≠ cid) :
    getChatSession (storePut store cid v) cid2 = getChatSession store cid2 := by
  have h2 : cid ≠ cid2 := Ne.symm h
  induction store with
  | nil => simp [storePut, getChatSession, List.find?, h2]
  | cons p rest ih =>
      by_cases hp : p.1 = cid
      · simp [storePut, getChatSession, List.find?, hp, h2]
      · simp only [storePut]
        rw [if_neg hp]
        by_cases hc2 : p.1 = cid2
        · simp [getChatSession, List.find?, hc2]
        · simpa [getChatSession, List.find?, hc2] using ih

/-- A delivery attempt with an all-success transport appends one successful
attempt to the trace and returns normally. -/
theorem sendMessageToClient_ok (sends : Nat → SendResult)
    (hs : ∀ n, sends n = SendResult.success) (st : TurnState) (p : Outbound) :
    sendMessageToClient sends st p =
      ({ st with attempts := st.attempts ++ [(p, SendResult.success)] }, Except.ok ()) := by
  simp [sendMessageToClient, hs]

/-- Successful delivery trace of a chunk list: every chunk forwarded in
order, tagged with its completion flag. -/
def chunkAttempts (cs : List LLMResponse) : List (Outbound × SendResult) :=
  cs.map (fun c => (Outbound.chunkMsg c.text c.isComplete, SendResult.success))

/-- Left-fold concatenation of the chunk texts onto an accumulator, the
shape of the source's `fullResponse += chunk.text` loop. -/
def chunkConcatFrom (acc : String) (cs : List LLMResponse) : String :=
  cs.foldl (fun a c => a ++ c.text) acc

/-- Concatenation of all chunk texts of a stream. -/
def chunkConcat (cs : List LLMResponse) : String :=
  chunkConcatFrom "" cs

/-- Delivery trace of a chunk list whose every attempt finds the remote
endpoint gone. -/
def goneChunkAttempts (cs : List LLMResponse) : List (Outbound × SendResult) :=
  cs.map (fun c => (Outbound.chunkMsg c.text c.isComplete, SendResult.goneErr))

/-- With an all-success transport the chunk loop delivers every chunk in
order and accumulates the concatenation exactly as `fullResponse` does. -/
theorem streamChunks_ok (sends : Nat → SendResult)
    (hs : ∀ n, sends n = SendResult.success) :
    ∀ (cs : List LLMResponse) (acc : String) (st : TurnState),
      streamChunks sends cs acc st =
        ({ st with attempts := st.attempts ++ chunkAttempts cs },
         chunkConcatFrom acc cs) := by
  intro cs
  induction cs with
  | nil => intro acc st; simp [streamChunks, chunkAttempts, chunkConcatFrom]
  | cons c rest ih =>
      intro acc st
      rw [streamChunks, sendMessageToClient_ok sends hs]
      simp [ih, chunkAttempts, chunkConcatFrom]

/-- When every delivery attempt from the current position on finds the
endpoint gone, the chunk loop still processes every chunk: each delivery
is attempted exactly once (and fails), each failure is logged, and the
full concatenation is accumulated - the unhandled rejections cannot stop
the stream. -/
theorem streamChunks_gone (sends : Nat → SendResult) :
    ∀ (cs : List LLMResponse) (acc : String) (st : TurnState),
      (∀ n, st.attempts.length ≤ n → sends n = SendResult.goneErr) →
      streamChunks sends cs acc st =
        ({ st with attempts := st.attempts ++ goneChunkAttempts cs,
                   goneLogs := st.goneLogs + cs.length },
         chunkConcatFrom acc cs) := by
  intro cs
  induction cs with
  | nil => intro acc st h; simp [streamChunks, goneChunkAttempts, chunkConcatFrom]
  | cons c rest ih =>
      intro acc st h
      have hsend : sends st.attempts.length = SendResult.goneErr := h _ (le_refl _)
      have hstep : streamChunks sends (c :: rest) acc st =
          streamChunks sends rest (acc ++ c.text)
            { st with
                attempts := st.attempts ++
                  [(Outbound.chunkMsg c.text c.isComplete, SendResult.goneErr)],
                goneLogs := st.goneLogs + 1 } := by
        rw [streamChunks]
        simp [sendMessageToClient, hsend]
      rw [hstep, ih]
      · have harith : st.goneLogs + 1 + rest.length = st.goneLogs + (rest.length + 1) := by
          omega
        simp only [goneChunkAttempts, chunkConcatFrom, List.map_cons, List.length_cons,
          List.foldl_cons, List.append_assoc, List.singleton_append, harith]
      · intro n hn
        apply h
        simp only [List.length_append, List.length_cons, List.length_nil] at hn
        omega

/-- Specialization of `streamChunks_gone` to the transport that is gone
from the second attempt on, started after the successful acknowledgment
(one attempt already in the trace). -/
theorem streamChunks_goneAfterAck (cs : List LLMResponse) (acc : String) (st : TurnState)
    (h1 : st.attempts.length = 1) :
    streamChunks goneAfterAckSends cs acc st =
      ({ st with attempts := st.attempts ++ goneChunkAttempts cs,
                 goneLogs := st.goneLogs + cs.length },
       chunkConcatFrom acc cs) := by
  apply streamChunks_gone
  intro n hn
  rw [h1] at hn
  have hne : n ≠ 0 := by omega
  simp [goneAfterAckSends, hne]

/-! ## Claim C1 -/

/-- C1: for an inbound message-action turn whose text is valid and is not
the /clear directive, when the generation stream succeeds (and the
transport delivers), exactly one user ChatMessage and then exactly one
assistant ChatMessage are appended to the session, in that order; the
assistant message's content is the concatenation of all chunk texts; the
delivery trace is the acknowledgment followed by the chunks in production
order, each tagged with its completion flag; and the turn's completion
response (returned by the service to the Lambda handler, which relays it
as the route response) carries the full concatenated text. -/
theorem message_turn_stream_success
    (sends : Nat → SendResult) (hs : ∀ n, sends n = SendResult.success)
    (store : Store) (connectionId userId sender t : String)
    (params : RawParams) (now : Nat) (sess : ChatSession)
    (hsess : getChatSession store connectionId = some sess)
    (hvalid : (safelySanitizeInput t).valid = true)
    (hnotclear : jsToLower (jsTrim t) ≠ "/clear")
    (cs : List LLMResponse) :
    (handleChatMessage sends (StreamSpec.chunks cs) t params connectionId userId sender now
        { store := store, attempts := [], goneLogs := 0, requests := [] }).2 =
      Except.ok (WsResponse.complete (chunkConcat cs) sender) ∧
    Option.map ChatSession.conversationHistory
      (getChatSession
        (handleChatMessage sends (StreamSpec.chunks cs) t params connectionId userId sender now
          { store := store, attempts := [], goneLogs := 0, requests := [] }).1.store
        connectionId) =
      some (sess.conversationHistory ++
        [{ role := Role.user, content := (safelySanitizeInput t).sanitized, timestamp := now },
         { role := Role.assistant, content := chunkConcat cs, timestamp := now }]) ∧
    (handleChatMessage sends (StreamSpec.chunks cs) t params connectionId userId sender now
        { store := store, attempts := [], goneLogs := 0, requests := [] }).1.attempts =
      (Outbound.processingAck, SendResult.success) :: chunkAttempts cs := by
  refine ⟨?_, ?_, ?_⟩ <;>
    simp [handleChatMessage, sendMessageToClient_ok sends hs, getOrCreateChatSession, hsess,
      hnotclear, hvalid, processWithLLM, addMessageToChatSession, streamResponse,
      streamChunks_ok sends hs, getChatSession_storePut_same, chunkConcat]

/-- C1 witness: the spec's concrete scenario (chunks Hel, lo, ! on a
pre-existing two-message session) instantiating the theorem. -/
theorem message_turn_stream_success_witness :
    (∀ n, allOkSends n = SendResult.success) ∧
    getChatSession demoStore "c1" = some demoSess ∧
    (safelySanitizeInput "hi").valid = true ∧
    jsToLower (jsTrim "hi") ≠ "/clear" ∧
    ((handleChatMessage allOkSends (StreamSpec.chunks demoChunks) "hi" emptyRawParams "c1" "u1"
        "Bob" 10 { store := demoStore, attempts := [], goneLogs := 0, requests := [] }).2 =
      Except.ok (WsResponse.complete (chunkConcat demoChunks) "Bob") ∧
    Option.map ChatSession.conversationHistory
      (getChatSession
        (handleChatMessage allOkSends (StreamSpec.chunks demoChunks) "hi" emptyRawParams "c1" "u1"
          "Bob" 10 { store := demoStore, attempts := [], goneLogs := 0, requests := [] }).1.store
        "c1") =
      some (demoSess.conversationHistory ++
        [{ role := Role.user, content := (safelySanitizeInput "hi").sanitized, timestamp := 10 },
         { role := Role.assistant, content := chunkConcat demoChunks, timestamp := 10 }]) ∧
    (handleChatMessage allOkSends (StreamSpec.chunks demoChunks) "hi" emptyRawParams "c1" "u1"
        "Bob" 10 { store := demoStore, attempts := [], goneLogs := 0, requests := [] }).1.attempts =
      (Outbound.processingAck, SendResult.success) :: chunkAttempts demoChunks) :=
  ⟨fun _ => rfl, by decide, by decide, by decide,
   message_turn_stream_success allOkSends (fun _ => rfl) demoStore "c1" "u1" "Bob" "hi"
     emptyRawParams 10 demoSess (by decide) (by decide) (by decide) demoChunks⟩

/-! ## Claim C2 -/

/-- C2 counterexample: with a stored 60-message prior history (contents
c0 .. c59) and the history cap of 50, the claim says the assembled prompt
contains exactly the most recent 49 prior messages (c11 .. c59).  It does
not: the rendered prompt omits the most recent prior message c59 entirely
(the code's `slice(0, -1)` drops it before the cap is applied), and it
does contain c9, the 51st-most-recent prior message. -/
theorem prompt_window_counterexample :
    containsSub (fullPromptFor hist60 "hi") "c59" = false ∧
    containsSub (fullPromptFor hist60 "hi") "c9" = true := by
  constructor
  · decide
  · decide

/-- Window identity: on a 60-message history, dropping the latest message
and keeping the last 50 yields messages 10 .. 59 of the prior 60
(1-indexed), that is, all but the first nine and the most recent one. -/
theorem takeRight_dropLast_window (h : List ChatMessage) (hlen : h.length = 60) :
    takeRight MAX_HISTORY_MESSAGES h.dropLast = (h.drop 9).dropLast := by
  simp [takeRight, MAX_HISTORY_MESSAGES, List.dropLast_eq_take, List.drop_take, hlen]

/-- C2 (amended): for a stored session holding 60 prior messages and the
history cap of 50, the prompt assembled for a new turn renders exactly
messages 10 .. 59 of the prior history (the most recent 50 of the prior
history after its most recent message has been dropped; the claimed
"most recent 49" is wrong on both counts) followed by the new turn's
framing, while the stored session keeps every prior message: afterwards it
holds all 60 plus the appended user and assistant turns. -/
theorem prompt_window_amended
    (sends : Nat → SendResult) (hs : ∀ n, sends n = SendResult.success)
    (store : Store) (connectionId userId sender t : String)
    (params : RawParams) (now : Nat) (sess : ChatSession)
    (hsess : getChatSession store connectionId = some sess)
    (hlen : sess.conversationHistory.length = 60)
    (hvalid : (safelySanitizeInput t).valid = true)
    (hnotclear : jsToLower (jsTrim t) ≠ "/clear")
    (cs : List LLMResponse) :
    (handleChatMessage sends (StreamSpec.chunks cs) t params connectionId userId sender now
        { store := store, attempts := [], goneLogs := 0, requests := [] }).1.requests =
      [{ prompt := fullPromptFor sess.conversationHistory (safelySanitizeInput t).sanitized,
         parameters := safelySanitizeParameters params }] ∧
    formatConversationHistory sess.conversationHistory =
      joinSep "\n\n" (((sess.conversationHistory.drop 9).dropLast).map (fun msg =>
        (if msg.role = Role.user then "Human: " else "Assistant: ") ++
          lightlySanitizeInput msg.content)) ∧
    Option.map ChatSession.conversationHistory
      (getChatSession
        (handleChatMessage sends (StreamSpec.chunks cs) t params connectionId userId sender now
          { store := store, attempts := [], goneLogs := 0, requests := [] }).1.store
        connectionId) =
      some (sess.conversationHistory ++
        [{ role := Role.user, content := (safelySanitizeInput t).sanitized, timestamp := now },
         { role := Role.assistant, content := chunkConcat cs, timestamp := now }]) := by
  have hne : sess.conversationHistory.isEmpty = false := by
    cases hh : sess.conversationHistory with
    | nil => rw [hh] at hlen; simp at hlen
    | cons a l => simp
  have hne2 : sess.conversationHistory.dropLast.isEmpty = false := by
    have : sess.conversationHistory.dropLast.length = 59 := by
      simp [List.length_dropLast, hlen]
    cases hh : sess.conversationHistory.dropLast with
    | nil => rw [hh] at this; simp at this
    | cons a l => simp
  refine ⟨?_, ?_, ?_⟩
  · simp [handleChatMessage, sendMessageToClient_ok sends hs, getOrCreateChatSession, hsess,
      hnotclear, hvalid, processWithLLM, addMessageToChatSession, streamResponse,
      streamChunks_ok sends hs, getChatSession_storePut_same]
  · rw [formatConversationHistory]
    rw [if_neg (by simp [hne]), if_neg (by simp [hne2])]
    rw [takeRight_dropLast_window sess.conversationHistory hlen]
  · simp [handleChatMessage, sendMessageToClient_ok sends hs, getOrCreateChatSession, hsess,
      hnotclear, hvalid, processWithLLM, addMessageToChatSession, streamResponse,
      streamChunks_ok sends hs, getChatSession_storePut_same, chunkConcat]

/-- C2 witness: the amended theorem instantiated on the concrete
60-message store. -/
theorem prompt_window_amended_witness :
    (∀ n, allOkSends n = SendResult.success) ∧
    getChatSession store60 "c1" = some sess60 ∧
    sess60.conversationHistory.length = 60 ∧
    (safelySanitizeInput "hi").valid = true ∧
    jsToLower (jsTrim "hi") ≠ "/clear" ∧
    ((handleChatMessage allOkSends (StreamSpec.chunks demoChunks) "hi" emptyRawParams "c1" "u1"
        "Bob" 99 { store := store60, attempts := [], goneLogs := 0, requests := [] }).1.requests =
      [{ prompt := fullPromptFor sess60.conversationHistory (safelySanitizeInput "hi").sanitized,
         parameters := safelySanitizeParameters emptyRawParams }] ∧
    formatConversationHistory sess60.conversationHistory =
      joinSep "\n\n" (((sess60.conversationHistory.drop 9).dropLast).map (fun msg =>
        (if msg.role = Role.user then "Human: " else "Assistant: ") ++
          lightlySanitizeInput msg.content)) ∧
    Option.map ChatSession.conversationHistory
      (getChatSession
        (handleChatMessage allOkSends (StreamSpec.chunks demoChunks) "hi" emptyRawParams "c1" "u1"
          "Bob" 99 { store := store60, attempts := [], goneLogs := 0, requests := [] }).1.store
        "c1") =
      some (sess60.conversationHistory ++
        [{ role := Role.user, content := (safelySanitizeInput "hi").sanitized, timestamp := 99 },
         { role := Role.assistant, content := chunkConcat demoChunks, timestamp := 99 }])) :=
  ⟨fun _ => rfl, by decide, by decide, by decide, by decide,
   prompt_window_amended allOkSends (fun _ => rfl) store60 "c1" "u1" "Bob" "hi"
     emptyRawParams 99 sess60 (by decide) (by decide) (by decide) (by decide) demoChunks⟩

/-! ## Claim C3 -/

/-- Value of the sanitizer on a dangerous-pattern match (under the length
guards): invalid, carrying the trimmed input and the fixed category
reason. -/
theorem sanitizeUserInput_dangerous (t : String)
    (h0 : (jsTrim t).length ≠ 0)
    (h1 : (jsTrim t).length ≤ MAX_MESSAGE_LENGTH)
    (hd : matchesDangerousPattern (jsTrim t) = true) :
    sanitizeUserInput t =
      { sanitized := jsTrim t, valid := false,
        errorMessage := some "Input contains potentially dangerous system access patterns" } := by
  rw [sanitizeUserInput]
  rw [if_neg h0, if_neg (by omega), if_pos hd]

/-- C3 counterexample: the claim says the invalid result carries the
original unmodified input text; for an input with surrounding whitespace
that matches a dangerous pattern, the carried text is the trimmed input,
not the original. -/
theorem dangerous_input_original_counterexample :
    (sanitizeUserInput " /etc/passwd ").valid = false ∧
    (sanitizeUserInput " /etc/passwd ").sanitized ≠ " /etc/passwd " := by
  constructor
  · decide
  · decide

/-- C3 (amended): for every input matching a dangerous-pattern rule (and
within the length guards), `sanitize` returns valid=false carrying the
trimmed input text (unmodified except for the trim; in particular no
control-character stripping is applied), and processing the turn leaves
the store - hence the session's message sequence - unchanged: no user turn
is appended for rejected input. -/
theorem dangerous_input_rejected
    (sends : Nat → SendResult) (hs : ∀ n, sends n = SendResult.success)
    (store : Store) (connectionId userId sender t : String)
    (params : RawParams) (now : Nat) (sess : ChatSession)
    (hsess : getChatSession store connectionId = some sess)
    (h0 : (jsTrim t).length ≠ 0)
    (h1 : (jsTrim t).length ≤ MAX_MESSAGE_LENGTH)
    (hd : matchesDangerousPattern (jsTrim t) = true)
    (hnotclear : jsToLower (jsTrim t) ≠ "/clear")
    (spec : StreamSpec) :
    sanitizeUserInput t =
      { sanitized := jsTrim t, valid := false,
        errorMessage := some "Input contains potentially dangerous system access patterns" } ∧
    (handleChatMessage sends spec t params connectionId userId sender now
        { store := store, attempts := [], goneLogs := 0, requests := [] }).1.store = store ∧
    (handleChatMessage sends spec t params connectionId userId sender now
        { store := store, attempts := [], goneLogs := 0, requests := [] }).2 =
      Except.ok (WsResponse.invalidInput
        "Input contains potentially dangerous system access patterns") ∧
    (handleChatMessage sends spec t params connectionId userId sender now
        { store := store, attempts := [], goneLogs := 0, requests := [] }).1.attempts =
      [(Outbound.processingAck, SendResult.success),
       (Outbound.invalidInputMsg "Input contains potentially dangerous system access patterns",
        SendResult.success)] := by
  have heq := sanitizeUserInput_dangerous t h0 h1 hd
  refine ⟨heq, ?_, ?_, ?_⟩ <;>
    simp [handleChatMessage, sendMessageToClient_ok sends hs, getOrCreateChatSession, hsess,
      hnotclear, safelySanitizeInput, heq]

/-- C3 witness: the amended theorem instantiated on the padded
"/etc/passwd" input. -/
theorem dangerous_input_rejected_witness :
    (∀ n, allOkSends n = SendResult.success) ∧
    getChatSession demoStore "c1" = some demoSess ∧
    (jsTrim " /etc/passwd ").length ≠ 0 ∧
    (jsTrim " /etc/passwd ").length ≤ MAX_MESSAGE_LENGTH ∧
    matchesDangerousPattern (jsTrim " /etc/passwd ") = true ∧
    jsToLower (jsTrim " /etc/passwd ") ≠ "/clear" ∧
    (sanitizeUserInput " /etc/passwd " =
      { sanitized := jsTrim " /etc/passwd ", valid := false,
        errorMessage := some "Input contains potentially dangerous system access patterns" } ∧
    (handleChatMessage allOkSends (StreamSpec.chunks demoChunks) " /etc/passwd " emptyRawParams
        "c1" "u1" "Bob" 10
        { store := demoStore, attempts := [], goneLogs := 0, requests := [] }).1.store = demoStore ∧
    (handleChatMessage allOkSends (StreamSpec.chunks demoChunks) " /etc/passwd " emptyRawParams
        "c1" "u1" "Bob" 10
        { store := demoStore, attempts := [], goneLogs := 0, requests := [] }).2 =
      Except.ok (WsResponse.invalidInput
        "Input contains potentially dangerous system access patterns") ∧
    (handleChatMessage allOkSends (StreamSpec.chunks demoChunks) " /etc/passwd " emptyRawParams
        "c1" "u1" "Bob" 10
        { store := demoStore, attempts := [], goneLogs := 0, requests := [] }).1.attempts =
      [(Outbound.processingAck, SendResult.success),
       (Outbound.invalidInputMsg "Input contains potentially dangerous system access patterns",
        SendResult.success)]) :=
  ⟨fun _ => rfl, by decide, by decide, by decide, by decide, by decide,
   dangerous_input_rejected allOkSends (fun _ => rfl) demoStore "c1" "u1" "Bob" " /etc/passwd "
     emptyRawParams 10 demoSess (by decide) (by decide) (by decide) (by decide) (by decide)
     (StreamSpec.chunks demoChunks)⟩

/-! ## Claim C4 -/

/-- C4: for a message-action turn whose text trims and lower-cases to
"/clear" (any casing, any surrounding whitespace), the clear path runs
before and instead of sanitization - the theorem assumes nothing about the
sanitizer's verdict on the text and no sanitizer output is observable -
no user message is appended, the session's history becomes the empty
sequence (independently of whether a session already existed), and the
delivery trace is exactly the acknowledgment followed by one system
"cleared" message. -/
theorem clear_directive_turn
    (sends : Nat → SendResult) (hs : ∀ n, sends n = SendResult.success)
    (store : Store) (connectionId userId sender t : String)
    (params : RawParams) (now : Nat)
    (hclear : jsToLower (jsTrim t) = "/clear")
    (spec : StreamSpec) :
    (handleChatMessage sends spec t params connectionId userId sender now
        { store := store, attempts := [], goneLogs := 0, requests := [] }).2 =
      Except.ok WsResponse.cleared ∧
    Option.map ChatSession.conversationHistory
      (getChatSession
        (handleChatMessage sends spec t params connectionId userId sender now
          { store := store, attempts := [], goneLogs := 0, requests := [] }).1.store
        connectionId) = some [] ∧
    (handleChatMessage sends spec t params connectionId userId sender now
        { store := store, attempts := [], goneLogs := 0, requests := [] }).1.attempts =
      [(Outbound.processingAck, SendResult.success),
       (Outbound.clearedMsg, SendResult.success)] := by
  cases hsess : getChatSession store connectionId with
  | some sess =>
      refine ⟨?_, ?_, ?_⟩ <;>
        simp [handleChatMessage, sendMessageToClient_ok sends hs, getOrCreateChatSession, hsess,
          hclear, handleClearCommand, clearChatSessionHistory, getChatSession_storePut_same]
  | none =>
      refine ⟨?_, ?_, ?_⟩ <;>
        simp [handleChatMessage, sendMessageToClient_ok sends hs, getOrCreateChatSession, hsess,
          hclear, handleClearCommand, clearChatSessionHistory, createChatSession,
          getChatSession_storePut_same]

/-- C4 witness: the theorem instantiated on the input "  /CLEAR  " over a
store with an existing non-empty session. -/
theorem clear_directive_turn_witness :
    (∀ n, allOkSends n = SendResult.success) ∧
    jsToLower (jsTrim "  /CLEAR  ") = "/clear" ∧
    ((handleChatMessage allOkSends (StreamSpec.chunks demoChunks) "  /CLEAR  " emptyRawParams
        "c1" "u1" "Bob" 10
        { store := demoStore, attempts := [], goneLogs := 0, requests := [] }).2 =
      Except.ok WsResponse.cleared ∧
    Option.map ChatSession.conversationHistory
      (getChatSession
        (handleChatMessage allOkSends (StreamSpec.chunks demoChunks) "  /CLEAR  " emptyRawParams
          "c1" "u1" "Bob" 10
          { store := demoStore, attempts := [], goneLogs := 0, requests := [] }).1.store
        "c1") = some [] ∧
    (handleChatMessage allOkSends (StreamSpec.chunks demoChunks) "  /CLEAR  " emptyRawParams
        "c1" "u1" "Bob" 10
        { store := demoStore, attempts := [], goneLogs := 0, requests := [] }).1.attempts =
      [(Outbound.processingAck, SendResult.success),
       (Outbound.clearedMsg, SendResult.success)]) :=
  ⟨fun _ => rfl, by decide,
   clear_directive_turn allOkSends (fun _ => rfl) demoStore "c1" "u1" "Bob" "  /CLEAR  "
     emptyRawParams 10 (by decide) (StreamSpec.chunks demoChunks)⟩

/-! ## Claim C5 -/

/-- C5: when every backend connection attempt fails, `getLLMClient` makes
exactly MAX_CONNECTION_ATTEMPTS (3) attempts separated by fixed
RETRY_DELAY_MS (1000 ms) delays and then fails with the
connection-failure error, which is surfaced to the caller; the streaming
call therefore rejects, and the turn produces exactly one error delivery,
categorized "ec2_connection_failure" (the thrown message contains
"Failed to connect" and none of the resource-constraint substrings), with
zero assistant messages appended to the session (only the user turn, which
was appended before the stream started). -/
theorem connect_retry_exhaustion_turn
    (attemptResult : Nat → Bool) (hfail : ∀ k, attemptResult k = false)
    (sends : Nat → SendResult) (hs : ∀ n, sends n = SendResult.success)
    (store : Store) (connectionId userId sender t : String)
    (params : RawParams) (now : Nat) (sess : ChatSession)
    (hsess : getChatSession store connectionId = some sess)
    (hvalid : (safelySanitizeInput t).valid = true)
    (hnotclear : jsToLower (jsTrim t) ≠ "/clear")
    (cs : List LLMResponse) :
    getLLMClient attemptResult =
      (Except.error connectFailureError, MAX_CONNECTION_ATTEMPTS,
        [RETRY_DELAY_MS, RETRY_DELAY_MS]) ∧
    streamSpecOfBackend attemptResult cs = StreamSpec.connectFail ∧
    (handleChatMessage sends (streamSpecOfBackend attemptResult cs) t params connectionId userId
        sender now { store := store, attempts := [], goneLogs := 0, requests := [] }).2 =
      Except.ok (WsResponse.errorResp connectionFailureText "ec2_connection_failure") ∧
    (handleChatMessage sends (streamSpecOfBackend attemptResult cs) t params connectionId userId
        sender now { store := store, attempts := [], goneLogs := 0, requests := [] }).1.attempts =
      [(Outbound.processingAck, SendResult.success),
       (Outbound.errorMsg connectionFailureText "ec2_connection_failure", SendResult.success)] ∧
    Option.map ChatSession.conversationHistory
      (getChatSession
        (handleChatMessage sends (streamSpecOfBackend attemptResult cs) t params connectionId
          userId sender now
          { store := store, attempts := [], goneLogs := 0, requests := [] }).1.store
        connectionId) =
      some (sess.conversationHistory ++
        [{ role := Role.user, content := (safelySanitizeInput t).sanitized, timestamp := now }]) := by
  have hclient : getLLMClient attemptResult =
      (Except.error connectFailureError, MAX_CONNECTION_ATTEMPTS,
        [RETRY_DELAY_MS, RETRY_DELAY_MS]) := by
    simp [getLLMClient, MAX_CONNECTION_ATTEMPTS, getLLMClientGo, hfail, RETRY_DELAY_MS]
  have hspec : streamSpecOfBackend attemptResult cs = StreamSpec.connectFail := by
    rw [streamSpecOfBackend, hclient]
  have hclass : llmErrorResponse connectFailureError =
      (connectionFailureText, "ec2_connection_failure") := by decide
  refine ⟨hclient, hspec, ?_, ?_, ?_⟩ <;>
    simp [hspec, handleChatMessage, sendMessageToClient_ok sends hs, getOrCreateChatSession,
      hsess, hnotclear, hvalid, processWithLLM, addMessageToChatSession, streamResponse,
      handleLLMError, hclass, getChatSession_storePut_same]

/-- C5 witness: the theorem instantiated with the all-failing connection
behaviour on the concrete demo store. -/
theorem connect_retry_exhaustion_turn_witness :
    (∀ k, allFailConnects k = false) ∧
    (∀ n, allOkSends n = SendResult.success) ∧
    getChatSession demoStore "c1" = some demoSess ∧
    (safelySanitizeInput "hi").valid = true ∧
    jsToLower (jsTrim "hi") ≠ "/clear" ∧
    (getLLMClient allFailConnects =
      (Except.error connectFailureError, MAX_CONNECTION_ATTEMPTS,
        [RETRY_DELAY_MS, RETRY_DELAY_MS]) ∧
    streamSpecOfBackend allFailConnects demoChunks = StreamSpec.connectFail ∧
    (handleChatMessage allOkSends (streamSpecOfBackend allFailConnects demoChunks) "hi"
        emptyRawParams "c1" "u1" "Bob" 10
        { store := demoStore, attempts := [], goneLogs := 0, requests := [] }).2 =
      Except.ok (WsResponse.errorResp connectionFailureText "ec2_connection_failure") ∧
    (handleChatMessage allOkSends (streamSpecOfBackend allFailConnects demoChunks) "hi"
        emptyRawParams "c1" "u1" "Bob" 10
        { store := demoStore, attempts := [], goneLogs := 0, requests := [] }).1.attempts =
      [(Outbound.processingAck, SendResult.success),
       (Outbound.errorMsg connectionFailureText "ec2_connection_failure", SendResult.success)] ∧
    Option.map ChatSession.conversationHistory
      (getChatSession
        (handleChatMessage allOkSends (streamSpecOfBackend allFailConnects demoChunks) "hi"
          emptyRawParams "c1" "u1" "Bob" 10
          { store := demoStore, attempts := [], goneLogs := 0, requests := [] }).1.store
        "c1") =
      some (demoSess.conversationHistory ++
        [{ role := Role.user, content := (safelySanitizeInput "hi").sanitized, timestamp := 10 }])) :=
  ⟨fun _ => rfl, fun _ => rfl, by decide, by decide, by decide,
   connect_retry_exhaustion_turn allFailConnects (fun _ => rfl) allOkSends (fun _ => rfl)
     demoStore "c1" "u1" "Bob" "hi" emptyRawParams 10 demoSess (by decide) (by decide)
     (by decide) demoChunks⟩

/-! ## Claim C6 -/

/-- C6 counterexample: the claim says an endpoint-gone delivery failure is
only logged and not raised to the caller; but `sendMessageToClient`
rethrows the `GoneException` unconditionally after logging it, so the
delivery call does not return normally. -/
theorem delivery_gone_counterexample :
    ¬ ((sendMessageToClient goneAfterAckSends
        { store := demoStore, attempts := [(Outbound.processingAck, SendResult.success)],
          goneLogs := 0, requests := [] }
        (Outbound.chunkMsg "Hel" false)).2 = Except.ok ()) := by
  simp [sendMessageToClient, goneAfterAckSends]

/-- C6 (amended): when the delivery channel reports the remote endpoint
gone, `sendMessageToClient` logs the event and rethrows the exception
(refuting "only logged, not raised"), and the failed delivery is never
retried.  What happens to the turn depends on where the gone report
occurs.  During a mid-stream chunk delivery the rejection happens inside
the unawaited data handler and is swallowed: the turn is NOT abandoned -
every chunk delivery is still attempted exactly once against the gone
endpoint (each occurrence logged), the assistant message is still
appended with the full concatenation, no error path runs, and the handler
returns a 200 response carrying the completion.  For the awaited
acknowledgment delivery the rethrown exception does propagate: the
Lambda handler catches it and returns a 500 response, with the session
untouched. -/
theorem delivery_gone_turn
    (store : Store) (connectionId userId sender t : String)
    (params : RawParams) (now : Nat) (sess : ChatSession)
    (hsess : getChatSession store connectionId = some sess)
    (hvalid : (safelySanitizeInput t).valid = true)
    (hnotclear : jsToLower (jsTrim t) ≠ "/clear")
    (cs : List LLMResponse) :
    (handler goneAfterAckSends (StreamSpec.chunks cs)
        { action := "message", data := some { message := some t, parameters := some params } }
        connectionId userId sender now store).1 = 200 ∧
    (handler goneAfterAckSends (StreamSpec.chunks cs)
        { action := "message", data := some { message := some t, parameters := some params } }
        connectionId userId sender now store).2.1 =
      some (WsResponse.complete (chunkConcat cs) sender) ∧
    (handler goneAfterAckSends (StreamSpec.chunks cs)
        { action := "message", data := some { message := some t, parameters := some params } }
        connectionId userId sender now store).2.2.attempts =
      (Outbound.processingAck, SendResult.success) :: goneChunkAttempts cs ∧
    (handler goneAfterAckSends (StreamSpec.chunks cs)
        { action := "message", data := some { message := some t, parameters := some params } }
        connectionId userId sender now store).2.2.goneLogs = cs.length ∧
    Option.map ChatSession.conversationHistory
      (getChatSession
        (handler goneAfterAckSends (StreamSpec.chunks cs)
          { action := "message", data := some { message := some t, parameters := some params } }
          connectionId userId sender now store).2.2.store
        connectionId) =
      some (sess.conversationHistory ++
        [{ role := Role.user, content := (safelySanitizeInput t).sanitized, timestamp := now },
         { role := Role.assistant, content := chunkConcat cs, timestamp := now }]) ∧
    (handler allGoneSends (StreamSpec.chunks cs)
        { action := "message", data := some { message := some t, parameters := some params } }
        connectionId userId sender now store).1 = 500 ∧
    (handler allGoneSends (StreamSpec.chunks cs)
        { action := "message", data := some { message := some t, parameters := some params } }
        connectionId userId sender now store).2.1 = none ∧
    (handler allGoneSends (StreamSpec.chunks cs)
        { action := "message", data := some { message := some t, parameters := some params } }
        connectionId userId sender now store).2.2.attempts =
      [(Outbound.processingAck, SendResult.goneErr)] ∧
    (handler allGoneSends (StreamSpec.chunks cs)
        { action := "message", data := some { message := some t, parameters := some params } }
        connectionId userId sender now store).2.2.store = store := by
  refine ⟨?_, ?_, ?_, ?_, ?_, ?_, ?_, ?_, ?_⟩ <;>
    simp [handler, handleMessage, validateMessageStructure, handleChatMessage,
      sendMessageToClient, goneAfterAckSends, allGoneSends, getOrCreateChatSession, hsess,
      hnotclear, hvalid, processWithLLM, addMessageToChatSession, streamResponse,
      streamChunks_goneAfterAck, getChatSession_storePut_same, chunkConcat]

/-- C6 witness: the amended theorem instantiated on the demo store with
the concrete demo chunks. -/
theorem delivery_gone_turn_witness :
    getChatSession demoStore "c1" = some demoSess ∧
    (safelySanitizeInput "hi").valid = true ∧
    jsToLower (jsTrim "hi") ≠ "/clear" ∧
    ((handler goneAfterAckSends (StreamSpec.chunks demoChunks)
        { action := "message",
          data := some { message := some "hi", parameters := some emptyRawParams } }
        "c1" "u1" "Bob" 10 demoStore).1 = 200 ∧
    (handler goneAfterAckSends (StreamSpec.chunks demoChunks)
        { action := "message",
          data := some { message := some "hi", parameters := some emptyRawParams } }
        "c1" "u1" "Bob" 10 demoStore).2.1 =
      some (WsResponse.complete (chunkConcat demoChunks) "Bob") ∧
    (handler goneAfterAckSends (StreamSpec.chunks demoChunks)
        { action := "message",
          data := some { message := some "hi", parameters := some emptyRawParams } }
        "c1" "u1" "Bob" 10 demoStore).2.2.attempts =
      (Outbound.processingAck, SendResult.success) :: goneChunkAttempts demoChunks ∧
    (handler goneAfterAckSends (StreamSpec.chunks demoChunks)
        { action := "message",
          data := some { message := some "hi", parameters := some emptyRawParams } }
        "c1" "u1" "Bob" 10 demoStore).2.2.goneLogs = demoChunks.length ∧
    Option.map ChatSession.conversationHistory
      (getChatSession
        (handler goneAfterAckSends (StreamSpec.chunks demoChunks)
          { action := "message",
            data := some { message := some "hi", parameters := some emptyRawParams } }
          "c1" "u1" "Bob" 10 demoStore).2.2.store
        "c1") =
      some (demoSess.conversationHistory ++
        [{ role := Role.user, content := (safelySanitizeInput "hi").sanitized, timestamp := 10 },
         { role := Role.assistant, content := chunkConcat demoChunks, timestamp := 10 }]) ∧
    (handler allGoneSends (StreamSpec.chunks demoChunks)
        { action := "message",
          data := some { message := some "hi", parameters := some emptyRawParams } }
        "c1" "u1" "Bob" 10 demoStore).1 = 500 ∧
    (handler allGoneSends (StreamSpec.chunks demoChunks)
        { action := "message",
          data := some { message := some "hi", parameters := some emptyRawParams } }
        "c1" "u1" "Bob" 10 demoStore).2.1 = none ∧
    (handler allGoneSends (StreamSpec.chunks demoChunks)
        { action := "message",
          data := some { message := some "hi", parameters := some emptyRawParams } }
        "c1" "u1" "Bob" 10 demoStore).2.2.attempts =
      [(Outbound.processingAck, SendResult.goneErr)] ∧
    (handler allGoneSends (StreamSpec.chunks demoChunks)
        { action := "message",
          data := some { message := some "hi", parameters := some emptyRawParams } }
        "c1" "u1" "Bob" 10 demoStore).2.2.store = demoStore) :=
  ⟨by decide, by decide, by decide,
   delivery_gone_turn demoStore "c1" "u1" "Bob" "hi" emptyRawParams 10 demoSess
     (by decide) (by decide) (by decide) demoChunks⟩

/-! ## Claim C7 -/

/-- The guards of `formatConversationHistory` are redundant: the function
always equals the rendering of the capped window (an empty window renders
as the empty string). -/
theorem formatConversationHistory_eq (h : List ChatMessage) :
    formatConversationHistory h =
      joinSep "\n\n" ((takeRight MAX_HISTORY_MESSAGES h.dropLast).map (fun msg =>
        (if msg.role = Role.user then "Human: " else "Assistant: ") ++
          lightlySanitizeInput msg.content)) := by
  cases h with
  | nil => simp [formatConversationHistory, takeRight, joinSep]
  | cons a l =>
      rw [formatConversationHistory]
      cases hd : (a :: l).dropLast.isEmpty with
      | true =>
          have hnil : (a :: l).dropLast = [] := by
            cases hh : (a :: l).dropLast with
            | nil => rfl
            | cons b m => rw [hh] at hd; simp at hd
          simp [hd, hnil, takeRight, joinSep]
      | false => simp [hd]

/-- C7 counterexample: the claim says each retained history message is
rendered as the role label plus its content; for a history message whose
content holds a control character (NUL), the rendered prompt differs from
that verbatim rendering (the content is lightly sanitized first). -/
theorem assemble_verbatim_counterexample :
    fullPromptFor ctrlHistory "hi" ≠ specRenderedPrompt ctrlHistory "hi" := by
  decide

/-- C7 (amended): prompt assembly is deterministic (identical inputs give
the identical string), the produced prompt renders each retained history
message as the `Human:`/`Assistant:` label plus the lightly sanitized
content (control characters stripped; verbatim for contents without
control characters), joined by blank lines and followed by the new turn's
framing, and every prompt ends with the literal suffix
`"\n\nAssistant:"`. -/
theorem assemble_refines_spec (h : List ChatMessage) (t : String) :
    fullPromptFor h t = specRenderedPrompt (h.map lightlySanitizedMsg) t ∧
    (∃ p, fullPromptFor h t = p ++ "\n\nAssistant:") ∧
    (∀ h2 t2, h = h2 → t = t2 → fullPromptFor h t = fullPromptFor h2 t2) := by
  have hren : joinSep "\n\n"
      ((takeRight MAX_HISTORY_MESSAGES (h.map lightlySanitizedMsg).dropLast).map (fun msg =>
        (if msg.role = Role.user then "Human: " else "Assistant: ") ++ msg.content)) =
      formatConversationHistory h := by
    rw [formatConversationHistory_eq, ← List.map_dropLast]
    simp only [takeRight, List.map_drop, List.map_map, List.length_map]
    have hfun : ((fun msg : ChatMessage =>
        (if msg.role = Role.user then "Human: " else "Assistant: ") ++ msg.content) ∘
          lightlySanitizedMsg) =
        (fun msg : ChatMessage =>
          (if msg.role = Role.user then "Human: " else "Assistant: ") ++
            lightlySanitizeInput msg.content) := by
      funext msg
      simp [lightlySanitizedMsg, Function.comp]
    rw [hfun]
  refine ⟨?_, ?_, ?_⟩
  · simp only [fullPromptFor, specRenderedPrompt, hren]
  · rw [fullPromptFor]
    by_cases hc : formatConversationHistory h = ""
    · rw [if_pos hc]; exact ⟨_, rfl⟩
    · rw [if_neg hc]; exact ⟨_, rfl⟩
  · intro h2 t2 hh ht
    rw [hh, ht]

/-- C7 witness: the amended theorem instantiated on the control-character
history, the determinism clause discharged at identical inputs. -/
theorem assemble_refines_spec_witness :
    fullPromptFor ctrlHistory "hi" =
      specRenderedPrompt (ctrlHistory.map lightlySanitizedMsg) "hi" ∧
    (∃ p, fullPromptFor ctrlHistory "hi" = p ++ "\n\nAssistant:") ∧
    fullPromptFor ctrlHistory "hi" = fullPromptFor ctrlHistory "hi" :=
  ⟨(assemble_refines_spec ctrlHistory "hi").1,
   (assemble_refines_spec ctrlHistory "hi").2.1,
   (assemble_refines_spec ctrlHistory "hi").2.2 ctrlHistory "hi" rfl rfl⟩

/-! ## Claim C8 -/

/-- C8: `sanitizeLLMParameters` never fails and always returns a usable
parameter set: every numeric field of the result lies within the
configured bounds (above-ceiling numeric values are capped at the
ceiling, non-numeric or out-of-range values fall back to the fixed
defaults), temperature 999 in particular comes back as the configured
ceiling 2, stop lists are filtered to strings only and truncated to 5
entries, and the `safely` wrapper is the function itself (it cannot
throw). -/
theorem sanitizeParameters_total_clamped (params : RawParams) :
    (0 < (sanitizeLLMParameters params).max_tokens ∧
      (sanitizeLLMParameters params).max_tokens ≤ MAX_PARAMS.max_tokens) ∧
    (0 ≤ (sanitizeLLMParameters params).temperature ∧
      (sanitizeLLMParameters params).temperature ≤ MAX_PARAMS.temperature) ∧
    (0 < (sanitizeLLMParameters params).top_p ∧
      (sanitizeLLMParameters params).top_p ≤ MAX_PARAMS.top_p) ∧
    (0 < (sanitizeLLMParameters params).top_k ∧
      (sanitizeLLMParameters params).top_k ≤ MAX_PARAMS.top_k) ∧
    (0 < (sanitizeLLMParameters params).repetition_penalty ∧
      (sanitizeLLMParameters params).repetition_penalty ≤ MAX_PARAMS.repetition_penalty) ∧
    (sanitizeLLMParameters params).stop.length ≤ 5 ∧
    (params.temperature = RNum.num 999 →
      (sanitizeLLMParameters params).temperature = MAX_PARAMS.temperature) ∧
    (∀ xs, params.stop = RStop.arr xs →
      (sanitizeLLMParameters params).stop =
        (xs.filterMap (fun v =>
          match v with
          | StopVal.str s => some s
          | StopVal.nonStr => none)).take 5) ∧
    safelySanitizeParameters params = sanitizeLLMParameters params := by
  refine ⟨?_, ?_, ?_, ?_, ?_, ?_, ?_, ?_, rfl⟩
  · cases h1 : params.max_tokens with
    | num x =>
        simp only [sanitizeLLMParameters, h1]
        split_ifs with hx
        · exact ⟨lt_min hx (by norm_num [MAX_PARAMS]), min_le_right _ _⟩
        · norm_num [DEFAULT_PARAMS, MAX_PARAMS]
    | other =>
        simp only [sanitizeLLMParameters, h1]
        norm_num [DEFAULT_PARAMS, MAX_PARAMS]
  · cases h2 : params.temperature with
    | num x =>
        simp only [sanitizeLLMParameters, h2]
        split_ifs with hx
        · exact ⟨le_min hx (by norm_num [MAX_PARAMS]), min_le_right _ _⟩
        · norm_num [DEFAULT_PARAMS, MAX_PARAMS]
    | other =>
        simp only [sanitizeLLMParameters, h2]
        norm_num [DEFAULT_PARAMS, MAX_PARAMS]
  · cases h3 : params.top_p with
    | num x =>
        simp only [sanitizeLLMParameters, h3]
        split_ifs with hx
        · exact hx
        · norm_num [DEFAULT_PARAMS, MAX_PARAMS]
    | other =>
        simp only [sanitizeLLMParameters, h3]
        norm_num [DEFAULT_PARAMS, MAX_PARAMS]
  · cases h4 : params.top_k with
    | num x =>
        simp only [sanitizeLLMParameters, h4]
        split_ifs with hx
        · exact ⟨lt_min hx (by norm_num [MAX_PARAMS]), min_le_right _ _⟩
        · norm_num [DEFAULT_PARAMS, MAX_PARAMS]
    | other =>
        simp only [sanitizeLLMParameters, h4]
        norm_num [DEFAULT_PARAMS, MAX_PARAMS]
  · cases h5 : params.repetition_penalty with
    | num x =>
        simp only [sanitizeLLMParameters, h5]
        split_ifs with hx
        · exact ⟨lt_min hx (by norm_num [MAX_PARAMS]), min_le_right _ _⟩
        · norm_num [DEFAULT_PARAMS, MAX_PARAMS]
    | other =>
        simp only [sanitizeLLMParameters, h5]
        norm_num [DEFAULT_PARAMS, MAX_PARAMS]
  · cases h6 : params.stop with
    | arr xs =>
        simp only [sanitizeLLMParameters, h6]
        simp [List.length_take]
    | notArr =>
        simp only [sanitizeLLMParameters, h6]
        norm_num [DEFAULT_PARAMS]
  · intro h999
    simp only [sanitizeLLMParameters, h999]
    norm_num [MAX_PARAMS, min_def]
  · intro xs hxs
    simp only [sanitizeLLMParameters, hxs]

/-- C8 witness: the theorem at temperature 999 with a mixed stop list. -/
theorem sanitizeParameters_total_clamped_witness :
    raw999.temperature = RNum.num 999 ∧
    raw999.stop = RStop.arr [StopVal.str "a", StopVal.nonStr, StopVal.str "b"] ∧
    (sanitizeLLMParameters raw999).temperature = MAX_PARAMS.temperature ∧
    (sanitizeLLMParameters raw999).stop =
      (([StopVal.str "a", StopVal.nonStr, StopVal.str "b"]).filterMap (fun v =>
        match v with
        | StopVal.str s => some s
        | StopVal.nonStr => none)).take 5 ∧
    safelySanitizeParameters raw999 = sanitizeLLMParameters raw999 :=
  ⟨rfl, rfl,
   (sanitizeParameters_total_clamped raw999).2.2.2.2.2.2.1 rfl,
   (sanitizeParameters_total_clamped raw999).2.2.2.2.2.2.2.1 _ rfl,
   (sanitizeParameters_total_clamped raw999).2.2.2.2.2.2.2.2⟩

/-! ## Claim C9 -/

/-- C9: session creation is idempotent: when a session already exists for
the connection id, `createChatSession` returns that existing session
unchanged and leaves the store untouched rather than overwriting the key
with a fresh empty session. -/
theorem createChatSession_idempotent (store : Store) (connectionId userId : String)
    (now : Nat) (sess : ChatSession)
    (hsess : getChatSession store connectionId = some sess) :
    createChatSession store connectionId userId now = (sess, store) := by
  simp [createChatSession, hsess]

/-- C9 witness: creating over the demo store's existing "c1" session, with
a different user id and timestamp, returns the stored session and the
unchanged store. -/
theorem createChatSession_idempotent_witness :
    getChatSession demoStore "c1" = some demoSess ∧
    createChatSession demoStore "c1" "someone-else" 777 = (demoSess, demoStore) :=
  ⟨by decide, createChatSession_idempotent demoStore "c1" "someone-else" 777 demoSess (by decide)⟩

/-! ## Claim C10 -/

/-- C10: in `handleLLMError`'s classification the resource-constraint
check runs after the connection-failure check and overwrites its result:
for every error whose message matches both substring lists, the resulting
category is "ec2_resource_constraint", and the turn's single delivered
error message carries that category. -/
theorem error_category_override
    (e : JsError)
    (hconn : isConnectionFailureMessage e.message = true)
    (hres : isResourceConstraintMessage e.message = true)
    (sends : Nat → SendResult) (hs : ∀ n, sends n = SendResult.success)
    (store : Store) (connectionId userId sender t : String)
    (params : RawParams) (now : Nat) (sess : ChatSession)
    (hsess : getChatSession store connectionId = some sess)
    (hvalid : (safelySanitizeInput t).valid = true)
    (hnotclear : jsToLower (jsTrim t) ≠ "/clear") :
    llmErrorResponse e = (resourceConstraintText, "ec2_resource_constraint") ∧
    (handleChatMessage sends (StreamSpec.streamErr e) t params connectionId userId sender now
        { store := store, attempts := [], goneLogs := 0, requests := [] }).2 =
      Except.ok (WsResponse.errorResp resourceConstraintText "ec2_resource_constraint") ∧
    (handleChatMessage sends (StreamSpec.streamErr e) t params connectionId userId sender now
        { store := store, attempts := [], goneLogs := 0, requests := [] }).1.attempts =
      [(Outbound.processingAck, SendResult.success),
       (Outbound.errorMsg resourceConstraintText "ec2_resource_constraint",
        SendResult.success)] := by
  have hclass : llmErrorResponse e = (resourceConstraintText, "ec2_resource_constraint") := by
    simp [llmErrorResponse, hres]
  refine ⟨hclass, ?_, ?_⟩ <;>
    simp [handleChatMessage, sendMessageToClient_ok sends hs, getOrCreateChatSession, hsess,
      hnotclear, hvalid, processWithLLM, addMessageToChatSession, streamResponse,
      handleLLMError, hclass]

/-- C10 witness: the theorem at the error message "network timeout", which
matches both the connection-failure list (via "network timeout") and the
resource list (via "timeout"). -/
theorem error_category_override_witness :
    isConnectionFailureMessage "network timeout" = true ∧
    isResourceConstraintMessage "network timeout" = true ∧
    (llmErrorResponse { name := "Error", message := "network timeout" } =
      (resourceConstraintText, "ec2_resource_constraint") ∧
    (handleChatMessage allOkSends
        (StreamSpec.streamErr { name := "Error", message := "network timeout" }) "hi"
        emptyRawParams "c1" "u1" "Bob" 10
        { store := demoStore, attempts := [], goneLogs := 0, requests := [] }).2 =
      Except.ok (WsResponse.errorResp resourceConstraintText "ec2_resource_constraint") ∧
    (handleChatMessage allOkSends
        (StreamSpec.streamErr { name := "Error", message := "network timeout" }) "hi"
        emptyRawParams "c1" "u1" "Bob" 10
        { store := demoStore, attempts := [], goneLogs := 0, requests := [] }).1.attempts =
      [(Outbound.processingAck, SendResult.success),
       (Outbound.errorMsg resourceConstraintText "ec2_resource_constraint",
        SendResult.success)]) :=
  ⟨by decide, by decide,
   error_category_override { name := "Error", message := "network timeout" } (by decide)
     (by decide) allOkSends (fun _ => rfl) demoStore "c1" "u1" "Bob" "hi" emptyRawParams 10
     demoSess (by decide) (by decide) (by decide)⟩
